import Mathlib

/-!
Shallow embedding of the `ImageOCRLatexUI` plugin
(`src/imageocrlatex/imageocrlatexui.js`) of the
`ckeditor5-ckeditor-image` repository, together with theorems about the
claims of its specification.

Strings are modelled as `List Char` (`String.data` of the literals).
JavaScript's `String.prototype.replaceAll` with a string pattern is
modelled as literal, left-to-right, non-overlapping global matching,
where each match is replaced by the replacement template processed by
the GetSubstitution rules of ECMA-262: inside a string replacement the
engine substitutes `$$`, `$&`, a dollar followed by a backquote, and a
dollar followed by a quote, against the original subject string of the
call and the match position, and passes everything else (including
`$n`, since a string search has no capture groups, and `$<`, since
named captures are undefined) through literally.
-/

namespace ImageOcrLatex

/-- GetSubstitution of ECMA-262 for a string search (no capture groups,
no named captures): scans the replacement template and substitutes
`$$` by a dollar, `$&` by the matched pattern, a dollar followed by a
backquote (`Char.ofNat 96`) by the portion of the subject before the
match, and a dollar followed by a quote (`Char.ofNat 39`) by the
portion after the match; every other character — including a dollar
followed by anything else and a trailing dollar — is passed through
literally. -/
def getSubstitution (pat before after : List Char) : List Char → List Char
  | [] => []
  | c :: rest =>
    if c = '$' then
      match rest with
      | [] => ['$']
      | c2 :: rest2 =>
        if c2 = '$' then '$' :: getSubstitution pat before after rest2
        else if c2 = '&' then pat ++ getSubstitution pat before after rest2
        else if c2 = Char.ofNat 96 then before ++ getSubstitution pat before after rest2
        else if c2 = Char.ofNat 39 then after ++ getSubstitution pat before after rest2
        else '$' :: c2 :: getSubstitution pat before after rest2
    else c :: getSubstitution pat before after rest

/-- Scanner for `String.prototype.replaceAll` with a non-empty pattern:
walks the text left to right; on a match at position `i` of `subject`
it emits the GetSubstitution-processed replacement and skips the
matched characters (the second `Nat` argument counts characters that
still belong to the current match and must be consumed without output);
otherwise it copies one character and moves on. -/
def replaceAllAux (subject pat rep : List Char) : Nat → Nat → List Char → List Char
  | _, _, [] => []
  | i, k + 1, _ :: rest => replaceAllAux subject pat rep (i + 1) k rest
  | i, 0, c :: rest =>
    if pat.isPrefixOf (c :: rest) then
      getSubstitution pat (subject.take i) (subject.drop (i + pat.length)) rep
        ++ replaceAllAux subject pat rep (i + 1) (pat.length - 1) rest
    else
      c :: replaceAllAux subject pat rep (i + 1) 0 rest

/-- The empty search string matches at every position `0..length`, so
the processed replacement is inserted before every character and at the
end of the subject. -/
def replaceAllEmptyPat (subject rep : List Char) : Nat → List Char → List Char
  | i, [] => getSubstitution [] (subject.take i) (subject.drop i) rep
  | i, c :: rest =>
    getSubstitution [] (subject.take i) (subject.drop i) rep
      ++ c :: replaceAllEmptyPat subject rep (i + 1) rest

/-- JavaScript `s.replaceAll(pat, rep)` for string arguments: global,
left-to-right, non-overlapping matching of the literal pattern, each
match replaced by the GetSubstitution-processed template. -/
def jsReplaceAll (s pat rep : List Char) : List Char :=
  match pat with
  | [] => replaceAllEmptyPat s rep 0 s
  | _ :: _ => replaceAllAux s pat rep 0 0 s

/-- Decidable check that `pat` occurs as a contiguous substring of `s`
(the JavaScript notion of a literal occurrence). -/
def containsSub (s pat : List Char) : Bool :=
  match s with
  | [] => pat.isEmpty
  | _ :: rest => pat.isPrefixOf s || containsSub rest pat

/-- Helper for `jsSetDedup`: keeps the first occurrence of every
element, skipping elements already seen. -/
def jsSetDedupAux (seen : List (List Char)) : List (List Char) → List (List Char)
  | [] => []
  | x :: xs =>
    if x ∈ seen then jsSetDedupAux seen xs
    else x :: jsSetDedupAux (x :: seen) xs

/-- JavaScript `[...new Set(l)]`: duplicates collapsed, order of first
appearance preserved. -/
def jsSetDedup (l : List (List Char)) : List (List Char) :=
  jsSetDedupAux [] l

/-- The styling wrapper of `_showForm`:
`` `<span class="math-tex">${latex}</span>` ``. -/
def spanWrap (latex : List Char) : List Char :=
  "<span class=\"math-tex\">".data ++ latex ++ "</span>".data

/-- Index of the first occurrence of `x` (length of the list when `x`
is absent); models the first-appearance position in iteration order of
a JavaScript `Set`. -/
def firstIdx (x : List Char) : List (List Char) → Nat
  | [] => 0
  | y :: ys => if y = x then 0 else firstIdx x ys + 1

/-- JavaScript `a || b` on strings: the empty string is falsy. -/
def jsOr (a b : List Char) : List Char :=
  if a = [] then b else a

/-- The result transformation of `_showForm` (lines 192-200): iterate the
`for`-loop over `[...new Set(latexes)]`, globally replacing each fragment
in the running `result`, then wrap in `<p>...</p>`. -/
def transformResult (math_text : List Char) (latex_maths : List (List Char)) : List Char :=
  let result := (jsSetDedup latex_maths).foldl
    (fun result latex => jsReplaceAll result latex (spanWrap latex)) math_text
  "<p>".data ++ result ++ "</p>".data

/-! ## State machine of the UI plugin

The asynchronous chain of `_showForm` is modelled as one deterministic
step whose outcome is fixed by an environment carrying the responses of
the two network calls of the activation.  Focus handling, balloon
repositioning and the MathJax preview element (direct DOM manipulation
through `window.document`) are outside the embedding; error values are
carried as the strings that `window.alert` would display. -/

/-- Body of a response to the image `GET` (`fetch(url)`), as far as
`_downloadImage` inspects it. -/
structure DlResponse where
  ok : Bool
  status : Nat
  blob : List Nat

/-- Body of a response to the OCR `POST`, as far as `_sendFormData` and
the success handler inspect it: `ok`/`status` of the HTTP layer, the
`detail` field of an error body, and the `math_text`/`latex_maths`
fields of a success body. -/
structure OcrHttpResponse where
  ok : Bool
  status : Nat
  detail : List Char
  math_text : List Char
  latex_maths : List (List Char)

/-- Parsed success payload `{ math_text: { data }, latex_maths: { data } }`. -/
structure OcrData where
  math_text : List Char
  latex_maths : List (List Char)

/-- Environment of one activation: the outcome of each of the two
`fetch` calls.  `.error e` is a network-level rejection whose displayed
string form is `e`. -/
structure Env where
  fetchImage : Except (List Char) DlResponse
  fetchOcr : Except (List Char) OcrHttpResponse

/-- The fixed OCR endpoint of `_sendFormData`. -/
def ocrEndpoint : List Char :=
  "https://internal-quizz.giainhanh.io/api/paper-exams/ocr-image".data

/-- Record of the OCR request as assembled in `_showForm`:
`formData.append('file', blob, 'image.jpg')` then a `POST` to the fixed
endpoint with the form data as body. -/
structure OcrRequest where
  url : List Char
  httpMethod : List Char
  filePartName : List Char
  fileName : List Char
  fileBytes : List Nat

/-- The `_downloadImage` helper: a network rejection propagates as-is;
a non-2xx response throws
`` new Error(` Error downloading image. Status: ${status} `) `` whose
alert display carries the `Error: ` prefix; otherwise the blob is
returned. -/
def downloadImage (r : Except (List Char) DlResponse) : Except (List Char) (List Nat) :=
  match r with
  | .error e => .error e
  | .ok resp =>
    if resp.ok then .ok resp.blob
    else .error ("Error:  Error downloading image. Status: ".data
        ++ (Nat.repr resp.status).data ++ " ".data)

/-- The `_sendFormData` helper: a non-2xx response throws
`` new Error(`HTTP error! Status: ${status}, Message: ${detail}`) ``,
which the trailing `catch` re-wraps in `new Error(error)`; the outer
alert in `_showForm` prefixes one more `Error: `.  The error strings
below are the strings that alert would display. -/
def sendFormData (r : Except (List Char) OcrHttpResponse) : Except (List Char) OcrData :=
  match r with
  | .error e => .error ("Error: ".data ++ e)
  | .ok resp =>
    if resp.ok then .ok { math_text := resp.math_text, latex_maths := resp.latex_maths }
    else .error ("Error: Error: HTTP error! Status: ".data ++ (Nat.repr resp.status).data
        ++ ", Message: ".data ++ resp.detail)

/-- Identifier of the plugin's single form view inside the balloon. -/
def formId : Nat := 0

/-- Observable state of the plugin: whether `_createForm` has run, the
text field's current value, the balloon's view stack (most recently
shown first), the alt-text attribute that the spec-modelled command
reads and writes, and logs of alerts, command executions, image
downloads and OCR requests. -/
structure UIState where
  formCreated : Bool
  fieldValue : List Char
  balloon : List Nat
  altText : List Char
  alerts : List (List Char)
  executions : List (List Char)
  downloadLog : List (List Char)
  requests : List OcrRequest

/-- The `_isVisible` getter: the form is the balloon's visible view
(and `_balloon` exists, which happens when `_createForm` has run). -/
def isVisible (s : UIState) : Bool :=
  s.formCreated && (s.balloon.head? == some formId)

/-- The `_isInBalloon` getter: the balloon holds the form view. -/
def isInBalloon (s : UIState) : Bool :=
  s.formCreated && s.balloon.contains formId

/-- Modelled from the spec: the `ImageOCRLatexCommand` source is not in
the repository snapshot; per the spec, `value` is the selected image's
current alt-text attribute and `execute({ newValue })` writes `newValue`
as that attribute.  Executions are also logged. -/
def execCommand (s : UIState) (newValue : List Char) : UIState :=
  { s with altText := newValue, executions := s.executions ++ [newValue] }

/-- The `_hideForm` method: early return when the form is not in the
balloon, otherwise remove the form view (focus handling not modelled). -/
def hideForm (s : UIState) : UIState :=
  if isInBalloon s then { s with balloon := s.balloon.erase formId } else s

/-- The `_showForm` method under environment `env`: early return when
already visible; create the form on first use; read `command.value` as
the image URL; download; on success build the multipart OCR request and
send it; on OCR success add the form to the balloon (guarded by
`_isInBalloon`), run the result transformation and overwrite the field
with `result || ''`; any failure is alerted and aborts the activation. -/
def showForm (s : UIState) (env : Env) : UIState :=
  if isVisible s then s
  else
    let s1 := if s.formCreated then s else { s with formCreated := true }
    let imgUrl := s1.altText
    let s2 := { s1 with downloadLog := s1.downloadLog ++ [imgUrl] }
    match downloadImage env.fetchImage with
    | .error a => { s2 with alerts := s2.alerts ++ [a] }
    | .ok blob =>
      let req : OcrRequest :=
        { url := ocrEndpoint, httpMethod := "POST".data,
          filePartName := "file".data, fileName := "image.jpg".data,
          fileBytes := blob }
      let s3 := { s2 with requests := s2.requests ++ [req] }
      match sendFormData env.fetchOcr with
      | .error a => { s3 with alerts := s3.alerts ++ [a] }
      | .ok data =>
        let s4 := if isInBalloon s3 then s3
          else { s3 with balloon := formId :: s3.balloon }
        let result := transformResult data.math_text data.latex_maths
        { s4 with fieldValue := jsOr result [] }

/-- External events the plugin reacts to.  The listeners for `submit`,
`cancel`, the `Esc` keystroke, outside clicks and `editor.ui` updates
are registered in `_createForm`, so they have an effect only once the
form exists; typing reaches the field only while it is shown. -/
inductive Event where
  | activate (env : Env)
  | submit
  | cancel
  | esc
  | clickOutside
  | typeText (v : List Char)
  | uiUpdate (imageSelected : Bool)

/-- One step of the plugin: dispatch an event against the listeners of
`_createForm` and the `_showForm` entry point. -/
def step (s : UIState) : Event → UIState
  | .activate env => showForm s env
  | .submit => if s.formCreated then hideForm (execCommand s s.fieldValue) else s
  | .cancel => if s.formCreated then hideForm s else s
  | .esc => if s.formCreated then hideForm s else s
  | .clickOutside => if isVisible s then hideForm s else s
  | .typeText v => if isVisible s then { s with fieldValue := v } else s
  | .uiUpdate imageSelected =>
    if s.formCreated && !imageSelected then hideForm s else s

/-- Initial state of the plugin for a document whose selected image has
alt-text (image URL) `url`: no form yet, empty balloon, empty logs. -/
def initState (url : List Char) : UIState :=
  { formCreated := false, fieldValue := [], balloon := [], altText := url,
    alerts := [], executions := [], downloadLog := [], requests := [] }

/-- Run a sequence of events from a state. -/
def runFrom (s : UIState) (es : List Event) : UIState :=
  es.foldl step s

/-- Sample activation environment: both network calls succeed and the
OCR service returns `math_text = "solve x"` with the single fragment
`x^2`, which has no literal occurrence in the text. -/
def sampleEnv : Env :=
  { fetchImage := .ok { ok := true, status := 200, blob := [7] },
    fetchOcr := .ok
      { ok := true, status := 200, detail := [],
        math_text := "solve x".data, latex_maths := ["x^2".data] } }

/-- Sample activation environment whose image download is rejected at
the network level. -/
def sampleEnvDlFail : Env :=
  { fetchImage := .error "TypeError: Failed to fetch".data,
    fetchOcr := .ok
      { ok := true, status := 200, detail := [],
        math_text := [], latex_maths := [] } }

/-- Sample activation environment whose download succeeds and whose OCR
request is answered with a non-2xx status and a JSON `detail` field. -/
def sampleEnvOcrFail : Env :=
  { fetchImage := .ok { ok := true, status := 200, blob := [1, 2] },
    fetchOcr := .ok
      { ok := false, status := 422, detail := "bad image".data,
        math_text := [], latex_maths := [] } }

/-- Sample state with the form created and visible in the balloon. -/
def sampleVisible : UIState :=
  { formCreated := true, fieldValue := "abc".data, balloon := [formId],
    altText := "http://example.com/image.jpg".data, alerts := [],
    executions := [], downloadLog := [], requests := [] }

/-! ## Lemmas about the result transformation -/

/-- The empty pattern occurs in every string. -/
lemma containsSub_nil (s : List Char) : containsSub s [] = true := by
  induction s with
  | nil => rfl
  | cons c rest ih => simp [containsSub, ih]

/-- A non-occurring pattern is never a prefix at any scan position, so
the scanner copies the text verbatim. -/
lemma replaceAllAux_of_not_containsSub (subject : List Char) (p : Char)
    (ps rep : List Char) :
    ∀ (s : List Char) (i : Nat), containsSub s (p :: ps) = false →
      replaceAllAux subject (p :: ps) rep i 0 s = s := by
  intro s
  induction s with
  | nil => intro _ _; rfl
  | cons c rest ih =>
    intro i h
    simp only [containsSub, Bool.or_eq_false_iff] at h
    simp [replaceAllAux, h.1, ih (i + 1) h.2]

/-- JavaScript `replaceAll` with a pattern that has no literal
occurrence in the string leaves the string unchanged. -/
lemma jsReplaceAll_of_not_containsSub (s pat rep : List Char)
    (h : containsSub s pat = false) : jsReplaceAll s pat rep = s := by
  cases pat with
  | nil => rw [containsSub_nil] at h; cases h
  | cons p ps => exact replaceAllAux_of_not_containsSub s p ps rep s 0 h

/-- GetSubstitution passes a dollar-free template through verbatim. -/
lemma getSubstitution_of_no_dollar (pat before after : List Char) :
    ∀ rep : List Char, ('$' : Char) ∉ rep →
      getSubstitution pat before after rep = rep := by
  intro rep
  induction rep with
  | nil => intro _; rfl
  | cons c rest ih =>
    intro h
    have hc : c ≠ '$' := fun e => h (by simp [e])
    have hrest : ('$' : Char) ∉ rest := fun e => h (List.mem_cons_of_mem c e)
    rw [getSubstitution.eq_def]
    simp [hc, ih hrest]

/-- The span wrapper of a dollar-free fragment is itself dollar-free. -/
lemma no_dollar_spanWrap (latex : List Char) (h : ('$' : Char) ∉ latex) :
    ('$' : Char) ∉ spanWrap latex := by
  intro hm
  rcases List.mem_append.1 hm with hm1 | hm2
  · rcases List.mem_append.1 hm1 with hma | hmb
    · exact (by decide : ('$' : Char) ∉ "<span class=\"math-tex\">".data) hma
    · exact h hmb
  · exact (by decide : ('$' : Char) ∉ "</span>".data) hm2

/-- Membership in the dedup accumulator run: kept iff present in the
input and not already seen. -/
lemma mem_jsSetDedupAux (x : List Char) :
    ∀ (l seen : List (List Char)),
      x ∈ jsSetDedupAux seen l ↔ x ∈ l ∧ x ∉ seen := by
  intro l
  induction l with
  | nil => intro seen; simp [jsSetDedupAux]
  | cons y ys ih =>
    intro seen
    by_cases hy : y ∈ seen
    · simp only [jsSetDedupAux, if_pos hy, ih, List.mem_cons]
      by_cases hxy : x = y
      · subst hxy; simp [hy]
      · simp [hxy]
    · simp only [jsSetDedupAux, if_neg hy, List.mem_cons, ih]
      by_cases hxy : x = y
      · subst hxy; simp [hy]
      · simp [hxy]

/-- The dedup run never emits an element twice. -/
lemma nodup_jsSetDedupAux :
    ∀ (l seen : List (List Char)), (jsSetDedupAux seen l).Nodup := by
  intro l
  induction l with
  | nil => intro seen; simp [jsSetDedupAux]
  | cons y ys ih =>
    intro seen
    by_cases hy : y ∈ seen
    · simpa [jsSetDedupAux, if_pos hy] using ih seen
    · rw [jsSetDedupAux, if_neg hy]
      refine List.Pairwise.cons ?_ (ih (y :: seen))
      intro b hb
      rcases (mem_jsSetDedupAux b ys (y :: seen)).1 hb with ⟨_, hns⟩
      exact fun hyb => hns (by simp [hyb])

/-- The dedup run is a sublist of the input: kept elements appear in
their original relative order. -/
lemma sublist_jsSetDedupAux :
    ∀ (l seen : List (List Char)), List.Sublist (jsSetDedupAux seen l) l := by
  intro l
  induction l with
  | nil => intro seen; simp [jsSetDedupAux]
  | cons y ys ih =>
    intro seen
    by_cases hy : y ∈ seen
    · exact List.Sublist.cons y (by simpa [jsSetDedupAux, if_pos hy] using ih seen)
    · simpa [jsSetDedupAux, if_neg hy] using List.Sublist.cons₂ y (ih (y :: seen))

/-- Elements are emitted by the dedup run in strictly increasing order
of their first occurrence in the input list. -/
lemma pairwise_firstIdx_jsSetDedupAux :
    ∀ (l seen : List (List Char)),
      List.Pairwise (fun a b => firstIdx a l < firstIdx b l)
        (jsSetDedupAux seen l) := by
  intro l
  induction l with
  | nil => intro seen; simp [jsSetDedupAux]
  | cons y ys ih =>
    intro seen
    have shift : ∀ z : List Char, z ≠ y → firstIdx z (y :: ys) = (firstIdx z ys) + 1 := by
      intro z hz
      rw [firstIdx, if_neg (fun e => hz e.symm)]
    have ne_of_aux : ∀ z, z ∈ jsSetDedupAux (y :: seen) ys → z ≠ y := by
      intro z hz
      rcases (mem_jsSetDedupAux z ys (y :: seen)).1 hz with ⟨_, hns⟩
      exact fun e => hns (by simp [e])
    by_cases hy : y ∈ seen
    · rw [jsSetDedupAux, if_pos hy]
      refine (ih seen).imp_of_mem ?_
      intro a b ha hb hlt
      have hane : a ≠ y := by
        rcases (mem_jsSetDedupAux a ys seen).1 ha with ⟨_, hns⟩
        exact fun e => hns (e ▸ hy)
      have hbne : b ≠ y := by
        rcases (mem_jsSetDedupAux b ys seen).1 hb with ⟨_, hns⟩
        exact fun e => hns (e ▸ hy)
      rw [shift a hane, shift b hbne]
      omega
    · rw [jsSetDedupAux, if_neg hy]
      refine List.pairwise_cons.2 ⟨?_, ?_⟩
      · intro b hb
        rw [show firstIdx y (y :: ys) = 0 from by rw [firstIdx, if_pos rfl],
          shift b (ne_of_aux b hb)]
        omega
      · refine (ih (y :: seen)).imp_of_mem ?_
        intro a b ha hb hlt
        rw [shift a (ne_of_aux a ha), shift b (ne_of_aux b hb)]
        omega

/-- The transformed result is never the empty string. -/
lemma transformResult_ne_nil (math_text : List Char)
    (latex_maths : List (List Char)) :
    transformResult math_text latex_maths ≠ [] := by
  intro h
  rw [transformResult, show "<p>".data = ['<', 'p', '>'] from rfl] at h
  simp at h

/-! ## Lemmas about the UI state machine -/

/-- Outcome of a fully successful activation started with an empty
balloon: the form is created, the download and the OCR request are
logged, the form view is added to the balloon and the field is
overwritten with the transformed OCR result. -/
lemma showForm_success_eq (s : UIState) (env : Env) (blob : List Nat)
    (data : OcrData) (hb : s.balloon = [])
    (hd : downloadImage env.fetchImage = Except.ok blob)
    (ho : sendFormData env.fetchOcr = Except.ok data) :
    showForm s env =
      { s with
        formCreated := true,
        downloadLog := s.downloadLog ++ [s.altText],
        requests := s.requests ++
          [{ url := ocrEndpoint, httpMethod := "POST".data,
             filePartName := "file".data, fileName := "image.jpg".data,
             fileBytes := blob }],
        balloon := [formId],
        fieldValue := transformResult data.math_text data.latex_maths } := by
  obtain ⟨fc, fv, bl, atx, al, ex, dl, rq⟩ := s
  simp only at hb
  subst hb
  have hne := transformResult_ne_nil data.math_text data.latex_maths
  cases fc <;>
    simp [showForm, isVisible, isInBalloon, hd, ho, jsOr, hne]

/-- Removing the form from the balloon does not increase the number of
its entries. -/
lemma count_hideForm_le (s : UIState) :
    List.count formId (hideForm s).balloon ≤ List.count formId s.balloon := by
  unfold hideForm
  split
  · exact (List.erase_sublist formId s.balloon).count_le formId
  · exact Nat.le_refl _

/-- Every event preserves the invariant that the balloon holds at most
one entry for the form view. -/
lemma count_step_le_one (s : UIState) (e : Event)
    (h : List.count formId s.balloon ≤ 1) :
    List.count formId (step s e).balloon ≤ 1 := by
  have hide_le : ∀ t : UIState, List.count formId t.balloon ≤ 1 →
      List.count formId (hideForm t).balloon ≤ 1 :=
    fun t ht => Nat.le_trans (count_hideForm_le t) ht
  cases e with
  | activate env =>
    by_cases hv : isVisible s = true
    · simpa [step, showForm, hv] using h
    · simp only [Bool.not_eq_true] at hv
      cases hdl : downloadImage env.fetchImage with
      | error a =>
        cases hF : s.formCreated <;> simpa [step, showForm, hv, hF, hdl] using h
      | ok blob =>
        cases hoc : sendFormData env.fetchOcr with
        | error a =>
          cases hF : s.formCreated <;>
            simpa [step, showForm, hv, hF, hdl, hoc] using h
        | ok data =>
          by_cases hib : formId ∈ s.balloon
          · cases hF : s.formCreated <;>
              simpa [step, showForm, hv, hF, hdl, hoc, isInBalloon, hib] using h
          · have h0 : List.count formId s.balloon = 0 :=
              List.count_eq_zero_of_not_mem hib
            cases hF : s.formCreated <;>
              simp [step, showForm, hv, hF, hdl, hoc, isInBalloon, hib, h0]
  | submit =>
    simp only [step]
    split
    · exact hide_le _ (by simpa [execCommand] using h)
    · exact h
  | cancel =>
    simp only [step]
    split
    · exact hide_le _ h
    · exact h
  | esc =>
    simp only [step]
    split
    · exact hide_le _ h
    · exact h
  | clickOutside =>
    simp only [step]
    split
    · exact hide_le _ h
    · exact h
  | typeText v =>
    simp only [step]
    split
    · simpa using h
    · exact h
  | uiUpdate imageSelected =>
    simp only [step]
    split
    · exact hide_le _ h
    · exact h

/-- The at-most-one-entry invariant is preserved by every run. -/
lemma count_runFrom_le_one (es : List Event) :
    ∀ s : UIState, List.count formId s.balloon ≤ 1 →
      List.count formId (runFrom s es).balloon ≤ 1 := by
  induction es with
  | nil => intro s h; exact h
  | cons e es ih =>
    intro s h
    exact ih (step s e) (count_step_le_one s e h)

/-! ## Claims -/

/-- C1 counterexample: the claim says the transformation replaces
occurrences of each fragment in `math_text.data` with the fragment
wrapped in a `math-tex` span, and leaves the text unchanged for
fragments with no literal occurrence in it.  Two refutations.  With
`math_text.data = "a"` and `latex_maths.data = ["a", "tex"]` the
fragment `tex` has no literal occurrence in `"a"`, yet the result
differs from the result without that fragment: replacement acts on the
evolving string, and `tex` occurs in the markup inserted for `a`.
With `math_text.data = "a$$b"` and `latex_maths.data = ["a$$b"]` the
occurrence is not replaced by the span-wrapped fragment: GetSubstitution
collapses the `$$` inside the replacement template to a single dollar,
producing `a$b` inside the span. -/
theorem claimC1_counterexample :
    containsSub "a".data "tex".data = false
    ∧ transformResult "a".data ["a".data, "tex".data]
        = "<p><span class=\"math-<span class=\"math-tex\">tex</span>\">a</span></p>".data
    ∧ transformResult "a".data ["a".data, "tex".data]
        ≠ transformResult "a".data ["a".data]
    ∧ transformResult "a$$b".data ["a$$b".data]
        = "<p><span class=\"math-tex\">a$b</span></p>".data
    ∧ transformResult "a$$b".data ["a$$b".data]
        ≠ "<p>".data ++ spanWrap "a$$b".data ++ "</p>".data := by
  decide

/-- C1 amended: the transformation iterates over the distinct LaTeX
fragments of `latex_maths.data` (duplicates collapsed, first-appearance
order) and performs sequential global replacement: each fragment is
replaced — every left-to-right non-overlapping literal occurrence — in
the string produced by the previous fragments' replacements, not in the
original `math_text.data`, and each occurrence is replaced by the span
template processed by the GetSubstitution rules (so only dollar-free
fragments are wrapped verbatim); the final string is wrapped in a `<p>`
element; a fragment with no literal occurrence in the current
intermediate string leaves that string unchanged. -/
theorem claimC1_amended (math_text : List Char) (latex_maths : List (List Char)) :
    transformResult math_text latex_maths
      = "<p>".data ++ ((jsSetDedup latex_maths).foldl
          (fun result latex => jsReplaceAll result latex (spanWrap latex)) math_text)
        ++ "</p>".data
    ∧ (jsSetDedup latex_maths).Nodup
    ∧ (∀ x, x ∈ jsSetDedup latex_maths ↔ x ∈ latex_maths)
    ∧ List.Sublist (jsSetDedup latex_maths) latex_maths
    ∧ List.Pairwise (fun a b => firstIdx a latex_maths < firstIdx b latex_maths)
        (jsSetDedup latex_maths)
    ∧ (∀ acc latex rep, containsSub acc latex = false →
        jsReplaceAll acc latex rep = acc)
    ∧ (∀ latex b a, ('$' : Char) ∉ latex →
        getSubstitution latex b a (spanWrap latex) = spanWrap latex) := by
  refine ⟨rfl, nodup_jsSetDedupAux latex_maths [], ?_,
    sublist_jsSetDedupAux latex_maths [],
    pairwise_firstIdx_jsSetDedupAux latex_maths [],
    fun acc latex rep h => jsReplaceAll_of_not_containsSub acc latex rep h,
    fun latex b a h =>
      getSubstitution_of_no_dollar latex b a (spanWrap latex) (no_dollar_spanWrap latex h)⟩
  intro x
  simpa using mem_jsSetDedupAux x latex_maths []

/-- C1 witness: at the concrete scenario of the claim, the fragment
`x^2` has no occurrence in `"solve x"`, its replacement step is the
identity, its dollar-free span template is emitted verbatim, and the
result is `<p>solve x</p>` unchanged. -/
theorem claimC1_witness :
    jsReplaceAll "solve x".data "x^2".data (spanWrap "x^2".data) = "solve x".data
    ∧ getSubstitution "x^2".data "solve ".data [] (spanWrap "x^2".data)
        = spanWrap "x^2".data
    ∧ transformResult "solve x".data ["x^2".data] = "<p>solve x</p>".data := by
  refine ⟨?_, ?_, by decide⟩
  · exact (claimC1_amended "solve x".data ["x^2".data]).2.2.2.2.2.1
      "solve x".data "x^2".data (spanWrap "x^2".data) (by decide)
  · exact (claimC1_amended "solve x".data ["x^2".data]).2.2.2.2.2.2
      "x^2".data "solve ".data [] (by decide)

/-- C2 counterexample: after a successful activation the field shows
the transformed OCR result, not the Command's current value: with
command value `http://img.jpg` (the image URL) and OCR text `solve x`,
the field shows `<p>solve x</p>` while the command value is still
`http://img.jpg`, so the field and the command value differ at the
moment the panel opens. -/
theorem claimC2_counterexample :
    (showForm (initState "http://img.jpg".data) sampleEnv).fieldValue
        = "<p>solve x</p>".data
    ∧ (showForm (initState "http://img.jpg".data) sampleEnv).altText
        = "http://img.jpg".data
    ∧ (showForm (initState "http://img.jpg".data) sampleEnv).fieldValue
        ≠ (showForm (initState "http://img.jpg".data) sampleEnv).altText := by
  decide

/-- C2 amended: whenever the panel is (re)opened successfully, the
field is unconditionally overwritten with the transformed OCR result
for the image at the Command's current value; in particular the second
conjunct shows that input typed during a cancelled edit never appears
in a newly opened panel: typing `v`, cancelling and reopening under the
same environment yields the same field content as the first opening. -/
theorem claimC2_amended (s : UIState) (env : Env) (blob : List Nat)
    (data : OcrData) (hb : s.balloon = [])
    (hd : downloadImage env.fetchImage = Except.ok blob)
    (ho : sendFormData env.fetchOcr = Except.ok data) :
    (showForm s env).fieldValue = transformResult data.math_text data.latex_maths
    ∧ ∀ v, (showForm (step (step (showForm s env) (.typeText v)) .cancel) env).fieldValue
        = (showForm s env).fieldValue := by
  rw [showForm_success_eq s env blob data hb hd ho]
  refine ⟨rfl, ?_⟩
  intro v
  rw [show step
      ({ s with
         formCreated := true,
         downloadLog := s.downloadLog ++ [s.altText],
         requests := s.requests ++
           [{ url := ocrEndpoint, httpMethod := "POST".data,
              filePartName := "file".data, fileName := "image.jpg".data,
              fileBytes := blob }],
         balloon := [formId],
         fieldValue := transformResult data.math_text data.latex_maths })
      (.typeText v) =
    { s with
      formCreated := true,
      downloadLog := s.downloadLog ++ [s.altText],
      requests := s.requests ++
        [{ url := ocrEndpoint, httpMethod := "POST".data,
           filePartName := "file".data, fileName := "image.jpg".data,
           fileBytes := blob }],
      balloon := [formId],
      fieldValue := v } from by simp [step, isVisible]]
  rw [show step
      ({ s with
         formCreated := true,
         downloadLog := s.downloadLog ++ [s.altText],
         requests := s.requests ++
           [{ url := ocrEndpoint, httpMethod := "POST".data,
              filePartName := "file".data, fileName := "image.jpg".data,
              fileBytes := blob }],
         balloon := [formId],
         fieldValue := v })
      .cancel =
    { s with
      formCreated := true,
      downloadLog := s.downloadLog ++ [s.altText],
      requests := s.requests ++
        [{ url := ocrEndpoint, httpMethod := "POST".data,
           filePartName := "file".data, fileName := "image.jpg".data,
           fileBytes := blob }],
      balloon := [],
      fieldValue := v } from by simp [step, hideForm, isInBalloon, formId]]
  rw [showForm_success_eq _ env blob data rfl hd ho]

/-- C2 witness: concrete run of the amended claim on the sample
environment, including a typed-then-cancelled edit. -/
theorem claimC2_witness :
    (showForm (initState "http://img.jpg".data) sampleEnv).fieldValue
        = "<p>solve x</p>".data
    ∧ (showForm (step (step (showForm (initState "http://img.jpg".data) sampleEnv)
          (.typeText "typed junk".data)) .cancel) sampleEnv).fieldValue
        = (showForm (initState "http://img.jpg".data) sampleEnv).fieldValue := by
  have h := claimC2_amended (initState "http://img.jpg".data) sampleEnv [7]
    { math_text := "solve x".data, latex_maths := ["x^2".data] } rfl rfl rfl
  exact ⟨h.1.trans (by decide), h.2 "typed junk".data⟩

/-- C3: for `math_text.data = "x^2 + x^2 = 0"` and
`latex_maths.data = ["x^2"]` the transformed result wraps both
occurrences in `math-tex` spans with no nested re-wrapping. -/
theorem claimC3 :
    transformResult "x^2 + x^2 = 0".data ["x^2".data]
      = "<p><span class=\"math-tex\">x^2</span> + <span class=\"math-tex\">x^2</span> = 0</p>".data := by
  decide

/-- C4: for every submit event while the panel is shown, the plugin
executes the Command with `newValue` equal to the field's current text
at the moment of submission (logged and written as the alt-text by the
spec-modelled command) and then hides the panel. -/
theorem claimC4 (s : UIState) (hv : isVisible s = true)
    (hc : List.count formId s.balloon ≤ 1) :
    (step s .submit).executions = s.executions ++ [s.fieldValue]
    ∧ (step s .submit).altText = s.fieldValue
    ∧ isInBalloon (step s .submit) = false := by
  have hv' := hv
  simp only [isVisible, Bool.and_eq_true, beq_iff_eq] at hv'
  obtain ⟨hF, hhead⟩ := hv'
  cases hbl : s.balloon with
  | nil => rw [hbl] at hhead; simp at hhead
  | cons b t =>
    rw [hbl] at hhead
    simp only [List.head?_cons, Option.some.injEq] at hhead
    subst hhead
    have hcnt : formId ∉ t := by
      rw [hbl] at hc
      simp only [List.count_cons_self] at hc
      exact List.count_eq_zero.1 (by omega)
    refine ⟨?_, ?_, ?_⟩ <;>
      simp [step, hF, execCommand, hideForm, isInBalloon, hbl, hcnt]

/-- C4 witness: submitting from the sample visible state logs exactly
the field text as the executed value and removes the form. -/
theorem claimC4_witness :
    (step sampleVisible .submit).executions = ["abc".data]
    ∧ (step sampleVisible .submit).altText = "abc".data
    ∧ isInBalloon (step sampleVisible .submit) = false := by
  have h := claimC4 sampleVisible (by decide) (by decide)
  exact ⟨h.1.trans (by decide), h.2.1.trans (by decide), h.2.2⟩

/-- C5: while the panel is shown, the cancel event, the Escape key and
a click outside the panel each hide the panel, leave the alt-text value
unchanged and never execute the Command. -/
theorem claimC5 (s : UIState) (hv : isVisible s = true)
    (hc : List.count formId s.balloon ≤ 1) :
    ((step s .cancel).altText = s.altText
      ∧ (step s .cancel).executions = s.executions
      ∧ isInBalloon (step s .cancel) = false)
    ∧ ((step s .esc).altText = s.altText
      ∧ (step s .esc).executions = s.executions
      ∧ isInBalloon (step s .esc) = false)
    ∧ ((step s .clickOutside).altText = s.altText
      ∧ (step s .clickOutside).executions = s.executions
      ∧ isInBalloon (step s .clickOutside) = false) := by
  have hv' := hv
  simp only [isVisible, Bool.and_eq_true, beq_iff_eq] at hv'
  obtain ⟨hF, hhead⟩ := hv'
  cases hbl : s.balloon with
  | nil => rw [hbl] at hhead; simp at hhead
  | cons b t =>
    rw [hbl] at hhead
    simp only [List.head?_cons, Option.some.injEq] at hhead
    subst hhead
    have hcnt : formId ∉ t := by
      rw [hbl] at hc
      simp only [List.count_cons_self] at hc
      exact List.count_eq_zero.1 (by omega)
    refine ⟨⟨?_, ?_, ?_⟩, ⟨?_, ?_, ?_⟩, ⟨?_, ?_, ?_⟩⟩ <;>
      simp [step, hF, hv, hideForm, isInBalloon, hbl, hcnt]

/-- C5 witness: cancelling, Escape and an outside click on the sample
visible state each remove the form and leave alt-text and execution
log untouched. -/
theorem claimC5_witness :
    ((step sampleVisible .cancel).altText = sampleVisible.altText
      ∧ (step sampleVisible .cancel).executions = []
      ∧ isInBalloon (step sampleVisible .cancel) = false)
    ∧ ((step sampleVisible .esc).altText = sampleVisible.altText
      ∧ (step sampleVisible .esc).executions = []
      ∧ isInBalloon (step sampleVisible .esc) = false)
    ∧ ((step sampleVisible .clickOutside).altText = sampleVisible.altText
      ∧ (step sampleVisible .clickOutside).executions = []
      ∧ isInBalloon (step sampleVisible .clickOutside) = false) := by
  have h := claimC5 sampleVisible (by decide) (by decide)
  exact ⟨⟨h.1.1, h.1.2.1.trans (by decide), h.1.2.2⟩,
    ⟨h.2.1.1, h.2.1.2.1.trans (by decide), h.2.1.2.2⟩,
    ⟨h.2.2.1, h.2.2.2.1.trans (by decide), h.2.2.2.2⟩⟩

/-- C6: when the image download or the OCR request fails, the
activation aborts: the error is alerted, the balloon (and every other
piece of state except the logged alert, the created form and the
request logs) is untouched, the panel is never added, and exactly one
download attempt — and at most one OCR request — is made. -/
theorem claimC6 (s : UIState) (env : Env) (hv : isVisible s = false) :
    (∀ a, downloadImage env.fetchImage = Except.error a →
      showForm s env =
        { s with
          formCreated := true,
          downloadLog := s.downloadLog ++ [s.altText],
          alerts := s.alerts ++ [a] })
    ∧ ∀ blob a, downloadImage env.fetchImage = Except.ok blob →
        sendFormData env.fetchOcr = Except.error a →
        showForm s env =
          { s with
            formCreated := true,
            downloadLog := s.downloadLog ++ [s.altText],
            requests := s.requests ++
              [{ url := ocrEndpoint, httpMethod := "POST".data,
                 filePartName := "file".data, fileName := "image.jpg".data,
                 fileBytes := blob }],
            alerts := s.alerts ++ [a] } := by
  obtain ⟨fc, fv, bl, atx, al, ex, dl, rq⟩ := s
  constructor
  · intro a hdl
    cases fc <;> simp [showForm, hv, hdl]
  · intro blob a hdl hoc
    cases fc <;> simp [showForm, hv, hdl, hoc]

/-- C6 witness: a network failure at the download stage and a non-2xx
OCR response each alert the error and leave the balloon empty. -/
theorem claimC6_witness :
    ((showForm (initState "http://img".data) sampleEnvDlFail).alerts
        = ["TypeError: Failed to fetch".data]
      ∧ (showForm (initState "http://img".data) sampleEnvDlFail).balloon = [])
    ∧ ((showForm (initState "http://img".data) sampleEnvOcrFail).alerts
        = ["Error: Error: HTTP error! Status: 422, Message: bad image".data]
      ∧ (showForm (initState "http://img".data) sampleEnvOcrFail).balloon = []) := by
  have h1 := (claimC6 (initState "http://img".data) sampleEnvDlFail (by decide)).1
    "TypeError: Failed to fetch".data rfl
  have h2 := (claimC6 (initState "http://img".data) sampleEnvOcrFail (by decide)).2
    [1, 2] "Error: Error: HTTP error! Status: 422, Message: bad image".data rfl rfl
  exact ⟨⟨by rw [h1]; rfl, by rw [h1]; rfl⟩, ⟨by rw [h2]; rfl, by rw [h2]; rfl⟩⟩

/-- C7: showing the panel while it is already visible is a no-op, and
hiding it while the form is not in the balloon is a no-op. -/
theorem claimC7 :
    (∀ (s : UIState) (env : Env), isVisible s = true → showForm s env = s)
    ∧ ∀ s : UIState, isInBalloon s = false → hideForm s = s := by
  constructor
  · intro s env hv
    simp [showForm, hv]
  · intro s hb
    simp [hideForm, hb]

/-- C7 witness: the no-ops at a concrete visible state and at the
initial state. -/
theorem claimC7_witness :
    isVisible sampleVisible = true
    ∧ showForm sampleVisible sampleEnv = sampleVisible
    ∧ isInBalloon (initState "u".data) = false
    ∧ hideForm (initState "u".data) = initState "u".data :=
  ⟨by decide, claimC7.1 sampleVisible sampleEnv (by decide),
    by decide, claimC7.2 (initState "u".data) (by decide)⟩

/-- C8: every successful download leads to exactly one OCR request,
a `POST` to the fixed endpoint whose multipart body carries the
downloaded bytes in a file part named `file` with filename `image.jpg`;
a non-2xx OCR response is treated as failure with a message built from
the response's status and its JSON `detail` field. -/
theorem claimC8 (s : UIState) (env : Env) (blob : List Nat)
    (hv : isVisible s = false)
    (hd : downloadImage env.fetchImage = Except.ok blob) :
    (showForm s env).requests = s.requests ++
      [{ url := "https://internal-quizz.giainhanh.io/api/paper-exams/ocr-image".data,
         httpMethod := "POST".data, filePartName := "file".data,
         fileName := "image.jpg".data, fileBytes := blob }]
    ∧ ∀ resp : OcrHttpResponse, resp.ok = false → env.fetchOcr = Except.ok resp →
        sendFormData env.fetchOcr =
          Except.error ("Error: Error: HTTP error! Status: ".data
            ++ (Nat.repr resp.status).data ++ ", Message: ".data ++ resp.detail) := by
  constructor
  · obtain ⟨fc, fv, bl, atx, al, ex, dl, rq⟩ := s
    cases hoc : sendFormData env.fetchOcr with
    | error a =>
      cases fc <;> simp [showForm, hv, hd, hoc, ocrEndpoint]
    | ok data =>
      by_cases hib : formId ∈ bl <;>
        cases fc <;> simp [showForm, hv, hd, hoc, isInBalloon, hib, ocrEndpoint]
  · intro resp hro hfo
    rw [hfo]
    simp [sendFormData, hro]

/-- C8 witness: the concrete OCR-failure environment yields exactly the
fixed-endpoint request with the downloaded bytes and the status/detail
error message. -/
theorem claimC8_witness :
    (showForm (initState "http://img".data) sampleEnvOcrFail).requests =
      [{ url := "https://internal-quizz.giainhanh.io/api/paper-exams/ocr-image".data,
         httpMethod := "POST".data, filePartName := "file".data,
         fileName := "image.jpg".data, fileBytes := [1, 2] }]
    ∧ sendFormData sampleEnvOcrFail.fetchOcr =
        Except.error ("Error: Error: HTTP error! Status: 422, Message: bad image".data) := by
  have h := claimC8 (initState "http://img".data) sampleEnvOcrFail [1, 2]
    (by decide) rfl
  refine ⟨by rw [h.1]; rfl, ?_⟩
  exact (h.2
    { ok := false, status := 422, detail := "bad image".data,
      math_text := [], latex_maths := [] } rfl rfl).trans rfl

/-- C9: across any run of events from the initial state, the balloon
never holds two entries for the form view: the balloon add call is
guarded by the form-not-in-balloon check. -/
theorem claimC9 (url : List Char) (es : List Event) :
    List.count formId (runFrom (initState url) es).balloon ≤ 1 :=
  count_runFrom_le_one es (initState url) (by simp [initState])

/-- C10: for every OCR response — including an empty text with no
fragments — the transformed result is a non-empty string that starts
with `<p>` and ends with `</p>`, so the `result || ''` fallback when
populating the field is never taken. -/
theorem claimC10 (math_text : List Char) (latex_maths : List (List Char)) :
    transformResult math_text latex_maths ≠ []
    ∧ "<p>".data <+: transformResult math_text latex_maths
    ∧ "</p>".data <:+ transformResult math_text latex_maths
    ∧ jsOr (transformResult math_text latex_maths) []
        = transformResult math_text latex_maths := by
  refine ⟨transformResult_ne_nil math_text latex_maths, ?_, ?_, ?_⟩
  · exact ⟨_, (List.append_assoc "<p>".data _ "</p>".data).symm⟩
  · exact ⟨"<p>".data ++ _, rfl⟩
  · simp [jsOr, transformResult_ne_nil math_text latex_maths]

end ImageOcrLatex
